import Mathlib

/-!
Shallow embedding of `src/parkinglot.py`: a Mininet script that builds a
four-router / eight-host chain topology (`NetworkTopo.build`), installs static
routes on the routers, applies tc traffic-shaping commands to every interface,
and finally stops the network (which terminates every node; `LinuxRouter`
overrides `terminate` to disable IP forwarding).

The embedding keeps the script's data literally: the topology fixture, the
`ip route add` commands, and the `tc` command sequences are transcribed as
structured values in the exact order the script issues them.
-/

/-- IPv4 address as four octets.  Every address in the script has the form
172.16.c.d with a /24 mask. -/
structure IPv4 where
  a : Nat
  b : Nat
  c : Nat
  d : Nat
  deriving DecidableEq, BEq

/-- Shorthand for the script's 172.16.c.d addresses. -/
def mkIp (c d : Nat) : IPv4 := ⟨172, 16, c, d⟩

/-- The hosts declared by `NetworkTopo.build` (src lines 73-83). -/
def hostNames : List String := ["h1", "h2", "h3", "h4", "h5", "h6", "h7", "h8"]

/-- The routers declared by `NetworkTopo.build` (src lines 85-88), in the
left-to-right order of the backbone chain r1-r2-r3-r4. -/
def routerNames : List String := ["r1", "r2", "r3", "r4"]

/-- One `addLink` call of `NetworkTopo.build` with both resulting interfaces.
Host-side interface names and addresses follow Mininet's defaults, visible in
the script's own tc commands: the single interface of host h is named h-eth0
and carries the host's configured address (`addHost` ip parameter). -/
structure LinkFix where
  node1 : String
  node2 : String
  intf1 : String
  intf2 : String
  ip1 : IPv4
  ip2 : IPv4
  deriving DecidableEq, BEq

/-- The links of `NetworkTopo.build`, in declaration order (src lines 90-103). -/
def networkLinks : List LinkFix := [
  ⟨"h1", "r1", "h1-eth0", "r1-eth2", mkIp 101 1, mkIp 101 2⟩,
  ⟨"h4", "r2", "h4-eth0", "r2-eth2", mkIp 104 1, mkIp 104 2⟩,
  ⟨"h6", "r3", "h6-eth0", "r3-eth2", mkIp 106 1, mkIp 106 2⟩,
  ⟨"h8", "r4", "h8-eth0", "r4-eth2", mkIp 108 1, mkIp 108 2⟩,
  ⟨"r1", "r2", "r1-eth10", "r2-eth11", mkIp 10 2, mkIp 10 3⟩,
  ⟨"r2", "r3", "r2-eth10", "r3-eth11", mkIp 11 2, mkIp 11 3⟩,
  ⟨"r3", "r4", "r3-eth10", "r4-eth11", mkIp 12 2, mkIp 12 3⟩,
  ⟨"h3", "r1", "h3-eth0", "r1-eth3", mkIp 103 1, mkIp 103 2⟩,
  ⟨"h5", "r2", "h5-eth0", "r2-eth3", mkIp 105 1, mkIp 105 2⟩,
  ⟨"h7", "r3", "h7-eth0", "r3-eth3", mkIp 107 1, mkIp 107 2⟩,
  ⟨"h2", "r4", "h2-eth0", "r4-eth3", mkIp 102 1, mkIp 102 2⟩ ]

/-- One interface of the topology: owning node, name, address. -/
structure IfaceFix where
  node : String
  name : String
  addr : IPv4
  deriving DecidableEq, BEq

/-- All interfaces of the topology, two per link, in link declaration order. -/
def allIfaces : List IfaceFix :=
  networkLinks.flatMap (fun l => [⟨l.node1, l.intf1, l.ip1⟩, ⟨l.node2, l.intf2, l.ip2⟩])

/-- Whether a node name is one of the four routers. -/
def isRouterName (n : String) : Bool := routerNames.contains n

/-- The node owning a named interface. -/
def ifaceOwner (dev : String) : Option String :=
  (allIfaces.find? (fun i => i.name == dev)).map (fun i => i.node)

/-- The /24 subnets (third octets) directly attached to a node: one per
interface of the node. -/
def attachedSubnets (r : String) : List Nat :=
  (allIfaces.filter (fun i => i.node == r)).map (fun i => i.addr.c)

/-- A link is a backbone link when both endpoints are routers. -/
def isBackbone (l : LinkFix) : Bool := isRouterName l.node1 && isRouterName l.node2

/-- The three backbone links r1-r2, r2-r3, r3-r4 (subnets 10, 11, 12). -/
def backboneLinks : List LinkFix := networkLinks.filter isBackbone

/-- Interface names of the backbone link endpoints. -/
def backboneDevs : List String := backboneLinks.flatMap (fun l => [l.intf1, l.intf2])

/-- Interface names of the access link endpoints (host side and router side). -/
def accessDevs : List String :=
  (networkLinks.filter (fun l => !(isBackbone l))).flatMap (fun l => [l.intf1, l.intf2])

/-- The router owning stub subnet 172.16.s.0/24: the router carrying an access
interface on that subnet (meaningful for the stub subnets 101-108). -/
def stubOwner (s : Nat) : Option String :=
  ((allIfaces.filter (fun i => isRouterName i.node)).find? (fun i => i.addr.c == s)).map
    (fun i => i.node)

/-- Position of a router in the backbone chain r1-r2-r3-r4. -/
def chainIdx (r : String) : Option Nat := routerNames.findIdx? (fun x => x == r)

/-- The backbone-neighbor interface address on the unique shortest backbone
path from router r toward the router owning stub subnet s.  The backbone
subgraph is the chain r1-r2-r3-r4, so the next hop from r toward a router
further right is the right neighbor's address on the backbone link starting at
r (its `ip2`), and toward a router further left it is the left neighbor's
address on the backbone link ending at r (its `ip1`); each router starts at
most one backbone link (as node1) and ends at most one (as node2). -/
def nextHopToward (r : String) (s : Nat) : Option IPv4 :=
  match chainIdx r, (stubOwner s).bind chainIdx with
  | some i, some j =>
      if i < j then (backboneLinks.find? (fun l => l.node1 == r)).map (fun l => l.ip2)
      else if j < i then (backboneLinks.find? (fun l => l.node2 == r)).map (fun l => l.ip1)
      else none
  | _, _ => none

/-- One `ip route add 172.16.dest/24 nexthop via VIA` command issued by `main`
on a router. -/
structure RouteAdd where
  router : String
  dest : Nat
  via : IPv4
  deriving DecidableEq, BEq

/-- The route-installation phase of `main` (src lines 129-143), in issue
order. -/
def routeAdds : List RouteAdd := [
  ⟨"r1", 104, mkIp 10 3⟩, ⟨"r1", 102, mkIp 10 3⟩,
  ⟨"r2", 102, mkIp 11 3⟩, ⟨"r2", 106, mkIp 11 3⟩,
  ⟨"r2", 103, mkIp 10 2⟩, ⟨"r2", 101, mkIp 10 2⟩,
  ⟨"r3", 102, mkIp 12 3⟩, ⟨"r3", 108, mkIp 12 3⟩,
  ⟨"r3", 101, mkIp 11 2⟩, ⟨"r3", 105, mkIp 11 2⟩,
  ⟨"r4", 101, mkIp 12 2⟩, ⟨"r4", 107, mkIp 12 2⟩ ]

/-- The ordered list of route entries installed on one router. -/
def routesFor (r : String) : List RouteAdd := routeAdds.filter (fun e => e.router == r)

/-- Whether a route list is sorted by destination subnet (all destinations are
172.16.x.0/24 networks, so the CIDR order is the order of the third octet). -/
def sortedByDestB : List RouteAdd → Bool
  | [] => true
  | [_] => true
  | a :: b :: t => Nat.ble a.dest b.dest && sortedByDestB (b :: t)

/-- The operation of a tc qdisc command: `tc qdisc add` or `tc qdisc change`. -/
inductive TcOp
  | add
  | change
  deriving DecidableEq, BEq

/-- The qdisc kind and numeric/string parameters of a tc qdisc command, as
they appear in the script's command strings. -/
inductive QdiscSpec
  | tbf (rate : String) (latency : String) (burst : Nat)
  | netem (delay : String) (jitter : String) (loss : Option String)
  | fq
  | htb (defaultMinor : Nat)
  | mf
  deriving DecidableEq, BEq

/-- One tc command: either a qdisc command (with optional parent; `none` means
root) or an htb class command. -/
inductive TcCmd
  | qdisc (op : TcOp) (dev : String) (parent : Option String) (handle : String)
      (spec : QdiscSpec)
  | htbClass (dev : String) (parent : String) (classid : String) (rate : String)
  deriving DecidableEq, BEq

/-- The device a tc command names. -/
def TcCmd.dev : TcCmd → String
  | .qdisc _ d _ _ _ => d
  | .htbClass d _ _ _ => d

/-- A tc command together with the node whose `cmd` method issues it. -/
structure NodeCmd where
  node : String
  cmd : TcCmd
  deriving DecidableEq, BEq

/-- Shaping parameter `queuing_del` of `main` (src line 113). -/
def queuing_del : String := "100ms"

/-- Shaping parameter `access_delay` (src line 115). -/
def access_delay : String := "20ms"

/-- Shaping parameter `access_delay_var` (src line 116). -/
def access_delay_var : String := "2ms"

/-- Shaping parameter `access_loss` (src line 117); defined by the script but
never used in any command. -/
def access_loss : String := "0.1%"

/-- Shaping parameter `access_rate` (src line 119). -/
def access_rate : String := "1024kbit"

/-- Shaping parameter `bottleneck_delay` (src line 121). -/
def bottleneck_delay : String := "20ms"

/-- Shaping parameter `bottleneck_delay_var` (src line 122). -/
def bottleneck_delay_var : String := "3ms"

/-- Shaping parameter `bottleneck_loss` (src line 123). -/
def bottleneck_loss : String := "0%"

/-- Shaping parameter `bottleneck_rate` (src line 125). -/
def bottleneck_rate : String := "666kbit"

/-- The three tc commands a host issues on its h-eth0 interface (src lines
151-153 and 157-159; the delay argument is `access_delay` for h3-h8 and the
literal 1ms for h1 and h2). -/
def hostAccessCmds (host : String) (delay : String) : List NodeCmd :=
  [ ⟨host, .qdisc .add (host ++ "-eth0") none "1:" (.tbf access_rate queuing_del 1540)⟩,
    ⟨host, .qdisc .add (host ++ "-eth0") (some "1:1") "10:" (.netem delay access_delay_var none)⟩,
    ⟨host, .qdisc .add (host ++ "-eth0") (some "10:") "101:" .fq⟩ ]

/-- The host-side access shaping commands of `main` (src lines 149-159), in
issue order. -/
def hostShaping : List NodeCmd :=
  (["h3", "h4", "h5", "h6", "h7", "h8"].flatMap (fun h => hostAccessCmds h access_delay)) ++
    (["h1", "h2"].flatMap (fun h => hostAccessCmds h "1ms"))

/-- The two tc commands a router issues on one of its access interfaces (src
lines 166-167): a tbf root and a netem child, with no fair-queuing stage. -/
def routerAccessCmds (router inf : String) : List NodeCmd :=
  [ ⟨router, .qdisc .add (router ++ "-" ++ inf) none "1:" (.tbf access_rate queuing_del 1540)⟩,
    ⟨router, .qdisc .add (router ++ "-" ++ inf) (some "1:1") "10:"
        (.netem access_delay access_delay_var none)⟩ ]

/-- The router-side access shaping commands of `main` (src lines 162-167). -/
def routerShaping : List NodeCmd :=
  routerNames.flatMap (fun r => ["eth2", "eth3"].flatMap (fun i => routerAccessCmds r i))

/-- The two delay-override commands of `main` (src lines 169-170).  The first
is issued by node r1 and names r1-eth2; the second is issued by node r2 and
names r4-eth3. -/
def overrideCmds : List NodeCmd :=
  [ ⟨"r1", .qdisc .change "r1-eth2" (some "1:1") "10:" (.netem "1ms" "1ms" none)⟩,
    ⟨"r2", .qdisc .change "r4-eth3" (some "1:1") "10:" (.netem "1ms" "1ms" none)⟩ ]

/-- The five commands issued on a router's eth10 backbone interface (src lines
174-179): an mf root qdisc at handle 1:, an htb qdisc beneath it at handle 2:
with default minor 10, classes 2:1 and 2:10, and a netem stage beneath 2:10
whose command carries an explicit loss parameter. -/
def backboneEth10Cmds (r : String) : List NodeCmd :=
  [ ⟨r, .qdisc .add (r ++ "-eth10") none "1:" .mf⟩,
    ⟨r, .qdisc .add (r ++ "-eth10") (some "1:") "2:" (.htb 10)⟩,
    ⟨r, .htbClass (r ++ "-eth10") "2:" "2:1" bottleneck_rate⟩,
    ⟨r, .htbClass (r ++ "-eth10") "2:1" "2:10" bottleneck_rate⟩,
    ⟨r, .qdisc .add (r ++ "-eth10") (some "2:10") "10:"
        (.netem bottleneck_delay bottleneck_delay_var (some bottleneck_loss))⟩ ]

/-- The four commands issued on a router's eth11 backbone interface (src lines
182-186): an htb root qdisc at handle 1: with default minor 10, classes 1:1
and 1:10, and a netem stage beneath 1:10 with no loss parameter. -/
def backboneEth11Cmds (r : String) : List NodeCmd :=
  [ ⟨r, .qdisc .add (r ++ "-eth11") none "1:" (.htb 10)⟩,
    ⟨r, .htbClass (r ++ "-eth11") "1:" "1:1" bottleneck_rate⟩,
    ⟨r, .htbClass (r ++ "-eth11") "1:1" "1:10" bottleneck_rate⟩,
    ⟨r, .qdisc .add (r ++ "-eth11") (some "1:10") "10:"
        (.netem bottleneck_delay bottleneck_delay_var none)⟩ ]

/-- The backbone shaping commands of `main` (src lines 174-186). -/
def backboneShaping : List NodeCmd :=
  (["r1", "r2", "r3"].flatMap backboneEth10Cmds) ++
    (["r2", "r3", "r4"].flatMap backboneEth11Cmds)

/-- All tc commands emitted by `main`, in issue order (src lines 149-186). -/
def shapingCmds : List NodeCmd :=
  hostShaping ++ routerShaping ++ overrideCmds ++ backboneShaping

/-- The tc commands naming a given device, in issue order. -/
def cmdsForDev (dev : String) : List TcCmd :=
  (shapingCmds.filter (fun c => c.cmd.dev == dev)).map (fun c => c.cmd)

/-- Whether a tc command adds a new qdisc stage (class and change commands are
not new stages). -/
def isQdiscAdd : TcCmd → Bool
  | .qdisc .add _ _ _ _ => true
  | _ => false

/-- The qdisc stages added on a device, in issue order. -/
def stagesForDev (dev : String) : List TcCmd := (cmdsForDev dev).filter isQdiscAdd

/-- Whether any netem command on the device carries a loss parameter. -/
def hasLossParam (dev : String) : Bool :=
  (cmdsForDev dev).any (fun c =>
    match c with
    | .qdisc _ _ _ _ (.netem _ _ (some _)) => true
    | _ => false)

/-- A tc command issued via a node's `cmd` method takes effect only when the
named device is an interface of that node: every Mininet node runs in its own
network namespace, in which other nodes' interfaces do not exist, so the
command fails there with no effect. -/
def effectiveCmds : List NodeCmd :=
  shapingCmds.filter (fun c => ifaceOwner c.cmd.dev == some c.node)

/-- The delay parameter of a netem qdisc command. -/
def netemDelayOf : TcCmd → Option String
  | .qdisc _ _ _ _ (.netem d _ _) => some d
  | _ => none

/-- Whether a tc command is a netem qdisc command. -/
def isNetemCmd (c : TcCmd) : Bool := (netemDelayOf c).isSome

/-- The delay parameter of the last effective netem command on a device, with
adds and changes applied in issue order: the netem delay the interface is left
with after `main`'s shaping phase. -/
def effectiveNetemDelay (dev : String) : Option String :=
  ((effectiveCmds.filter (fun c => c.cmd.dev == dev && isNetemCmd c.cmd)).getLast?).bind
    (fun c => netemDelayOf c.cmd)

/-- The local flag `isRTP` of `main` (src line 111). -/
def isRTP : Bool := false

/-- The top-level phases of `main`. -/
inductive Phase
  | routeInstall
  | shapingApply
  | iperfTest
  | controlShell
  | rtpLaunch
  | streamLaunch
  | netStop
  deriving DecidableEq, BEq

/-- Top-level control flow of `main cli` (src lines 105-216): configure routes,
apply shaping, then branch on the truthiness of `cli` (the bandwidth test plus
control shell), else on `isRTP` (the RTP launch plus control shell), else the
streamer launch plus control shell; finally `net.stop()`.  The script has no
exception handling and none of its straight-line steps can abort, so every run
executes one branch and then the stop phase. -/
def mainPhases (cli : Nat) : List Phase :=
  [.routeInstall, .shapingApply] ++
    (if cli != 0 then [.iperfTest, .controlShell]
     else if isRTP then [.rtpLaunch, .controlShell]
     else [.streamLaunch, .controlShell]) ++
    [.netStop]

/-- LinuxRouter.terminate (src lines 64-66) disables IP forwarding once
(`sysctl net.ipv4.ip_forward=0`) and then delegates to the base Node
terminate, which issues no forwarding command.  The list collects the nodes on
which the forwarding-disable command runs. -/
def linuxRouterTerminateDisables (r : String) : List String := [r]

/-- All nodes of the network. -/
def allNodeNames : List String := hostNames ++ routerNames

/-- Modelled from the spec: the network stop operation (`net.stop()`, provided
by the external Mininet platform) terminates every node of the network exactly
once; Router nodes run `LinuxRouter.terminate` and Host nodes run the base
terminate, which disables no forwarding.  The list collects, in order, the
nodes on which the forwarding-disable command (ip_forward=0) runs during
teardown. -/
def netStopDisables : List String :=
  allNodeNames.flatMap (fun n => if isRouterName n then linuxRouterTerminateDisables n else [])

/-- Error kind of the spec's topology validation. -/
inductive TopologyError
  | duplicateAddress (a : IPv4)
  | duplicateIfaceName (n : String)
  deriving DecidableEq, BEq

/-- An interface record of the spec's TopologyGraph: address is optional. -/
structure ModelIface where
  node : String
  name : String
  addr : Option IPv4
  deriving DecidableEq, BEq

/-- State of the spec's TopologyGraph while it is being built. -/
structure TopoState where
  ifaces : List ModelIface
  links : List (String × String)
  deriving DecidableEq, BEq

/-- An addLink request: endpoint nodes, interface names, optional addresses. -/
structure LinkReq where
  nodeA : String
  nodeB : String
  nameA : String
  nameB : String
  addrA : Option IPv4
  addrB : Option IPv4
  deriving DecidableEq, BEq

/-- Whether an address is already assigned to some interface of the state. -/
def addrUsed (st : TopoState) (a : IPv4) : Bool :=
  st.ifaces.any (fun i => i.addr == some a)

/-- The first endpoint address of the request already used in the state, if
any. -/
def dupA (st : TopoState) (req : LinkReq) : Option IPv4 :=
  req.addrA.bind (fun a => if addrUsed st a then some a else none)

/-- The second endpoint address of the request already used in the state, if
any. -/
def dupB (st : TopoState) (req : LinkReq) : Option IPv4 :=
  req.addrB.bind (fun b => if addrUsed st b then some b else none)

/-- Whether either endpoint address of the request is already assigned to an
interface elsewhere in the topology. -/
def reqDupAddr (st : TopoState) (req : LinkReq) : Bool :=
  (dupA st req).isSome || (dupB st req).isSome

/-- Whether an interface name is already used in the state. -/
def nameUsed (st : TopoState) (n : String) : Bool :=
  st.ifaces.any (fun i => i.name == n)

/-- Whether the requested interface names collide with existing ones or with
each other. -/
def reqDupName (st : TopoState) (req : LinkReq) : Bool :=
  nameUsed st req.nameA || nameUsed st req.nameB || (req.nameA == req.nameB)

/-- Modelled from the spec: `addLink` itself is provided to `NetworkTopo.build`
by the external Mininet platform and is not part of the repository, so the
operation is modelled from the spec's description: it fails with a
TopologyError on a duplicate address or duplicate interface name before
creating any Link, leaving the topology unchanged; otherwise it appends the
two new interfaces and the link. -/
def addLink (st : TopoState) (req : LinkReq) : Option TopologyError × TopoState :=
  match dupA st req with
  | some a => (some (.duplicateAddress a), st)
  | none =>
    match dupB st req with
    | some b => (some (.duplicateAddress b), st)
    | none =>
      if reqDupName st req then (some (.duplicateIfaceName req.nameA), st)
      else (none,
        ⟨st.ifaces ++ [⟨req.nodeA, req.nameA, req.addrA⟩, ⟨req.nodeB, req.nameB, req.addrB⟩],
         st.links ++ [(req.nodeA, req.nodeB)]⟩)

/-- Concrete TopoState used to instantiate the addLink theorem: one interface
r1-eth2 on r1 carrying 172.16.101.2. -/
def wState : TopoState := ⟨[⟨"r1", "r1-eth2", some (mkIp 101 2)⟩], []⟩

/-- Concrete LinkReq reusing the already-assigned address 172.16.101.2. -/
def wReq : LinkReq := ⟨"h9", "r1", "h9-eth0", "r1-eth4", some (mkIp 101 2), none⟩

/-- C1 counterexample: the claim says every router gets exactly one route entry
for every subnet not directly attached to it, but subnet 172.16.105.0/24 is not
attached to r1 and the route-installation phase issues no route entry at all
for (r1, 172.16.105.0/24). -/
theorem c1_counterexample :
    (attachedSubnets "r1").contains 105 = false ∧
    (routeAdds.filter (fun e => e.router == "r1" && e.dest == 105)).length = 0 := by
  decide

/-- C1 (amended): the route-installation phase of `main` installs at most one
route entry per (router, subnet) pair, and every entry it does install has as
next hop the backbone-neighbor interface address on the unique shortest
backbone path from the router toward the router owning the destination subnet,
the destination never being directly attached; but entries exist only for the
twelve hard-coded pairs, not for every non-attached subnet. -/
theorem c1_installed_routes_follow_shortest_path :
    (routeAdds.map (fun e => (e.router, e.dest))).Nodup ∧
    routeAdds.all (fun e =>
      (nextHopToward e.router e.dest == some e.via) &&
      !((attachedSubnets e.router).contains e.dest)) = true := by
  constructor
  · decide
  · decide

/-- C2: in the four-router fixture, r1 is given route entries for subnets
172.16.104/24 and 172.16.102/24 with next hop 172.16.10.3 (r2's interface
r2-eth11 on backbone subnet 10), and r4 is given route entries for subnets
172.16.101/24 and 172.16.107/24 with next hop 172.16.12.2 (r3's interface
r3-eth10 on backbone subnet 12). -/
theorem c2_fixture_routes_r1_r4 :
    routesFor "r1" = [⟨"r1", 104, mkIp 10 3⟩, ⟨"r1", 102, mkIp 10 3⟩] ∧
    routesFor "r4" = [⟨"r4", 101, mkIp 12 2⟩, ⟨"r4", 107, mkIp 12 2⟩] ∧
    allIfaces.contains ⟨"r2", "r2-eth11", mkIp 10 3⟩ = true ∧
    allIfaces.contains ⟨"r3", "r3-eth10", mkIp 12 2⟩ = true := by
  decide

/-- C3 counterexample: the claim says every backbone link endpoint's directive
sequence contains no loss-injection element (loss=0 omitting it), but the
backbone endpoint r1-eth10 is configured with a netem directive that carries an
explicit loss parameter (loss 0%). -/
theorem c3_counterexample :
    backboneDevs.contains "r1-eth10" = true ∧ hasLossParam "r1-eth10" = true := by
  decide

/-- C3 (amended): only the eth11-side backbone endpoints get the described
directive sequence with the loss element omitted — an htb hierarchy whose
outer class is capped at 666kbit with one inner default class and a netem
20ms/3ms delay stage beneath it; the eth10-side backbone endpoints place the
same hierarchy beneath an extra root qdisc of kind mf and their netem
directive carries an explicit loss 0% parameter rather than omitting it. -/
theorem c3_backbone_loss_parameter_split :
    (["r2-eth11", "r3-eth11", "r4-eth11"].all (fun d => !(hasLossParam d))) = true ∧
    (["r1-eth10", "r2-eth10", "r3-eth10"].all hasLossParam) = true ∧
    (["r2", "r3", "r4"].all (fun r => decide (cmdsForDev (r ++ "-eth11") =
      [ .qdisc .add (r ++ "-eth11") none "1:" (.htb 10),
        .htbClass (r ++ "-eth11") "1:" "1:1" "666kbit",
        .htbClass (r ++ "-eth11") "1:1" "1:10" "666kbit",
        .qdisc .add (r ++ "-eth11") (some "1:10") "10:" (.netem "20ms" "3ms" none) ]))) = true ∧
    (["r1", "r2", "r3"].all (fun r => decide (cmdsForDev (r ++ "-eth10") =
      [ .qdisc .add (r ++ "-eth10") none "1:" .mf,
        .qdisc .add (r ++ "-eth10") (some "1:") "2:" (.htb 10),
        .htbClass (r ++ "-eth10") "2:" "2:1" "666kbit",
        .htbClass (r ++ "-eth10") "2:1" "2:10" "666kbit",
        .qdisc .add (r ++ "-eth10") (some "2:10") "10:"
          (.netem "20ms" "3ms" (some "0%")) ]))) = true := by
  refine ⟨?_, ?_, ?_, ?_⟩ <;> decide

/-- C4 counterexample: the claim says every endpoint interface of every access
link gets exactly three ordered stages ending in a fair-queuing stage, but the
access endpoint r1-eth2 gets exactly two stages — a tbf root and a netem child
— and no fair-queuing stage. -/
theorem c4_counterexample :
    accessDevs.contains "r1-eth2" = true ∧
    stagesForDev "r1-eth2" = [
      .qdisc .add "r1-eth2" none "1:" (.tbf "1024kbit" "100ms" 1540),
      .qdisc .add "r1-eth2" (some "1:1") "10:" (.netem "20ms" "2ms" none) ] := by
  decide

/-- C4 (amended): only the host-side endpoints of the access links get the
three ordered stages — a tbf rate limiter at 1024kbit as root, a netem
delay/jitter stage as its child (delay 20ms for h3-h8, overridden to 1ms for
h1 and h2, jitter 2ms), and a fair-queuing stage as the netem stage's child;
the router-side access endpoints get only the first two stages and no
fair-queuing stage. -/
theorem c4_access_stage_split :
    (["h3", "h4", "h5", "h6", "h7", "h8"].all (fun h => decide (stagesForDev (h ++ "-eth0") =
      [ .qdisc .add (h ++ "-eth0") none "1:" (.tbf "1024kbit" "100ms" 1540),
        .qdisc .add (h ++ "-eth0") (some "1:1") "10:" (.netem "20ms" "2ms" none),
        .qdisc .add (h ++ "-eth0") (some "10:") "101:" .fq ]))) = true ∧
    (["h1", "h2"].all (fun h => decide (stagesForDev (h ++ "-eth0") =
      [ .qdisc .add (h ++ "-eth0") none "1:" (.tbf "1024kbit" "100ms" 1540),
        .qdisc .add (h ++ "-eth0") (some "1:1") "10:" (.netem "1ms" "2ms" none),
        .qdisc .add (h ++ "-eth0") (some "10:") "101:" .fq ]))) = true ∧
    (routerNames.all (fun r => ["eth2", "eth3"].all (fun i =>
      decide (stagesForDev (r ++ "-" ++ i) =
        [ .qdisc .add (r ++ "-" ++ i) none "1:" (.tbf "1024kbit" "100ms" 1540),
          .qdisc .add (r ++ "-" ++ i) (some "1:1") "10:"
            (.netem "20ms" "2ms" none) ])))) = true := by
  refine ⟨?_, ?_, ?_⟩ <;> decide

/-- C5 counterexample: the claim says every router's route entries are
installed sorted by destination CIDR, but r1's list is installed as
destinations 104 then 102, which is not sorted. -/
theorem c5_counterexample : sortedByDestB (routesFor "r1") = false := by decide

/-- C5 (amended): route entries are installed per router in a fixed hard-coded
order that is not sorted by destination CIDR for r1, r2 and r3; only r4's two
entries happen to be in sorted order. -/
theorem c5_sortedness_by_router :
    sortedByDestB (routesFor "r4") = true ∧
    sortedByDestB (routesFor "r1") = false ∧
    sortedByDestB (routesFor "r2") = false ∧
    sortedByDestB (routesFor "r3") = false := by
  decide

/-- C6: for every run of `main cli`, the network-stop phase occurs exactly once
and is the final phase regardless of which branch setup took, and teardown
runs the forwarding-disable operation (ip_forward=0) exactly once on each of
the four routers and on no other node. -/
theorem c6_teardown_disables_each_router_once :
    (∀ cli : Nat, (mainPhases cli).count Phase.netStop = 1 ∧
      (mainPhases cli).getLast? = some Phase.netStop) ∧
    netStopDisables = ["r1", "r2", "r3", "r4"] := by
  refine ⟨fun cli => ?_, rfl⟩
  rcases cli with _ | n <;> exact ⟨rfl, rfl⟩

/-- C6 witness: the teardown facts instantiated at the concrete run cli = 0. -/
theorem c6_witness :
    (mainPhases 0).count Phase.netStop = 1 ∧
    netStopDisables = ["r1", "r2", "r3", "r4"] :=
  ⟨(c6_teardown_disables_each_router_once.1 0).1,
   c6_teardown_disables_each_router_once.2⟩

/-- C7: in the spec-modelled TopologyGraph, every `addLink` call in which
either endpoint address is already assigned to an interface elsewhere in the
topology fails with a TopologyError and leaves the topology unchanged, so no
Link object is created. -/
theorem c7_addLink_duplicate_address_rejected (st : TopoState) (req : LinkReq)
    (h : reqDupAddr st req = true) :
    (addLink st req).1.isSome = true ∧ (addLink st req).2 = st := by
  unfold addLink
  cases hA : dupA st req with
  | some a => exact ⟨rfl, rfl⟩
  | none =>
    cases hB : dupB st req with
    | some b => exact ⟨rfl, rfl⟩
    | none =>
      exfalso
      unfold reqDupAddr at h
      rw [hA, hB] at h
      simp at h

/-- C7 witness: a concrete state holding address 172.16.101.2 and an addLink
request reusing that address; the request is rejected and the state is
unchanged. -/
theorem c7_witness :
    reqDupAddr wState wReq = true ∧
    ((addLink wState wReq).1.isSome = true ∧ (addLink wState wReq).2 = wState) :=
  ⟨by decide, c7_addLink_duplicate_address_rejected wState wReq (by decide)⟩

/-- C8: the two endpoints of each backbone link get different stage
hierarchies — each eth10-side endpoint first installs a root qdisc of kind mf
and attaches the two-level htb hierarchy (handle 2:, classes 2:1 and 2:10)
beneath it with a trailing netem stage carrying a loss parameter, while each
eth11-side endpoint installs htb directly as root (handle 1:, classes 1:1 and
1:10) with a trailing netem stage carrying no loss parameter. -/
theorem c8_backbone_endpoint_asymmetry :
    cmdsForDev "r1-eth10" = [
      .qdisc .add "r1-eth10" none "1:" .mf,
      .qdisc .add "r1-eth10" (some "1:") "2:" (.htb 10),
      .htbClass "r1-eth10" "2:" "2:1" "666kbit",
      .htbClass "r1-eth10" "2:1" "2:10" "666kbit",
      .qdisc .add "r1-eth10" (some "2:10") "10:" (.netem "20ms" "3ms" (some "0%")) ] ∧
    cmdsForDev "r2-eth10" = [
      .qdisc .add "r2-eth10" none "1:" .mf,
      .qdisc .add "r2-eth10" (some "1:") "2:" (.htb 10),
      .htbClass "r2-eth10" "2:" "2:1" "666kbit",
      .htbClass "r2-eth10" "2:1" "2:10" "666kbit",
      .qdisc .add "r2-eth10" (some "2:10") "10:" (.netem "20ms" "3ms" (some "0%")) ] ∧
    cmdsForDev "r3-eth10" = [
      .qdisc .add "r3-eth10" none "1:" .mf,
      .qdisc .add "r3-eth10" (some "1:") "2:" (.htb 10),
      .htbClass "r3-eth10" "2:" "2:1" "666kbit",
      .htbClass "r3-eth10" "2:1" "2:10" "666kbit",
      .qdisc .add "r3-eth10" (some "2:10") "10:" (.netem "20ms" "3ms" (some "0%")) ] ∧
    cmdsForDev "r2-eth11" = [
      .qdisc .add "r2-eth11" none "1:" (.htb 10),
      .htbClass "r2-eth11" "1:" "1:1" "666kbit",
      .htbClass "r2-eth11" "1:1" "1:10" "666kbit",
      .qdisc .add "r2-eth11" (some "1:10") "10:" (.netem "20ms" "3ms" none) ] ∧
    cmdsForDev "r3-eth11" = [
      .qdisc .add "r3-eth11" none "1:" (.htb 10),
      .htbClass "r3-eth11" "1:" "1:1" "666kbit",
      .htbClass "r3-eth11" "1:1" "1:10" "666kbit",
      .qdisc .add "r3-eth11" (some "1:10") "10:" (.netem "20ms" "3ms" none) ] ∧
    cmdsForDev "r4-eth11" = [
      .qdisc .add "r4-eth11" none "1:" (.htb 10),
      .htbClass "r4-eth11" "1:" "1:1" "666kbit",
      .htbClass "r4-eth11" "1:1" "1:10" "666kbit",
      .qdisc .add "r4-eth11" (some "1:10") "10:" (.netem "20ms" "3ms" none) ] := by
  refine ⟨?_, ?_, ?_, ?_, ?_, ?_⟩ <;> decide

/-- C9: of the two near-zero delay-override directives, the one naming
r1-eth2 is issued by node r1 (which owns r1-eth2) while the one naming
r4-eth3 is issued by node r2 although r4-eth3 belongs to r4; consequently the
netem delay r1-eth2 is left with is 1ms while r4-eth3 keeps the 20ms access
delay. -/
theorem c9_misdirected_override :
    overrideCmds.map (fun c => (c.node, c.cmd.dev)) =
      [("r1", "r1-eth2"), ("r2", "r4-eth3")] ∧
    ifaceOwner "r1-eth2" = some "r1" ∧
    ifaceOwner "r4-eth3" = some "r4" ∧
    effectiveNetemDelay "r1-eth2" = some "1ms" ∧
    effectiveNetemDelay "r4-eth3" = some "20ms" := by
  refine ⟨?_, ?_, ?_, ?_, ?_⟩ <;> decide

/-- C10: for every invocation of `main cli` the RTP-streaming branch is
unreachable (isRTP is the constant false and the rtpLaunch phase never
occurs); the bandwidth-test branch runs exactly when cli is nonzero, the
streamer-launch branch runs exactly when cli is zero, and the control shell
runs in every case. -/
theorem c10_rtp_branch_unreachable :
    isRTP = false ∧
    ∀ cli : Nat,
      (mainPhases cli).contains Phase.rtpLaunch = false ∧
      (mainPhases cli).contains Phase.iperfTest = (cli != 0) ∧
      (mainPhases cli).contains Phase.streamLaunch = (cli == 0) ∧
      (mainPhases cli).contains Phase.controlShell = true := by
  refine ⟨rfl, fun cli => ?_⟩
  rcases cli with _ | n <;> exact ⟨rfl, rfl, rfl, rfl⟩

/-- C10 witness: the branch facts instantiated at the concrete runs cli = 0
and cli = 1. -/
theorem c10_witness :
    (mainPhases 0).contains Phase.rtpLaunch = false ∧
    (mainPhases 1).contains Phase.iperfTest = ((1 : Nat) != 0) ∧
    (mainPhases 0).contains Phase.streamLaunch = ((0 : Nat) == 0) :=
  ⟨(c10_rtp_branch_unreachable.2 0).1,
   (c10_rtp_branch_unreachable.2 1).2.1,
   (c10_rtp_branch_unreachable.2 0).2.2.1⟩
